import Mathlib

/-!
Verification development for the Sol solar-system sonification app.

The development shallowly embeds the parts of the TypeScript source that the
checked properties talk about:

* `src/data/planets.ts` — the `Planet` record and the `PLANETS` table used by
  the audio engine and the visualization (display-only `description` prose is
  omitted; no property reads it).
* `src/lib/orbital-mechanics.ts` — `calculateOrbitPosition` and friends.
  JavaScript numbers are idealized as real numbers; the JS `%` operator
  (remainder with the sign of the dividend) is embedded as `jsMod`.
* `src/lib/audioEngine.ts` (`CelestialAudioEngine`) — the state-machine
  skeleton: the fields read or written by `initialize`, `start`, `stop`,
  `setTempo`, `setPlanetMute`, `togglePlanetMute`, `setPlanetVolume`,
  `getSettings`, `reportError`, `clearError` and `attemptRecovery`.  Web
  Audio graph objects (gain nodes, synths, loops) are abstracted to presence
  sets; rational numbers stand for the JS number fields that the state
  machine stores and compares.
* `src/components/SolarSystemVisualization.tsx` — the orbit-spacing constants
  and the per-frame `animate` position computation.
-/

namespace Sol

/-- Planet record from `src/data/planets.ts` (interface `Planet`).  The
`description` display string is omitted; `isMuted?: boolean` is an optional
field, embedded as `Option Bool`.  Numeric fields are rationals. -/
structure Planet where
  id : String
  name : String
  color : String
  orbitalPeriod : ℚ
  distanceFromSun : ℚ
  radius : ℚ
  musicalNote : String
  frequency : ℚ
  isMuted : Option Bool

/-- Mercury entry of `PLANETS` in `src/data/planets.ts`. -/
def mercuryP : Planet :=
  { id := "mercury", name := "Mercury", color := "#8C7853", orbitalPeriod := 88,
    distanceFromSun := 0.39, radius := 0.38, musicalNote := "C",
    frequency := 261.63, isMuted := none }

/-- Venus entry of `PLANETS` in `src/data/planets.ts`. -/
def venusP : Planet :=
  { id := "venus", name := "Venus", color := "#FFC649", orbitalPeriod := 225,
    distanceFromSun := 0.72, radius := 0.95, musicalNote := "D",
    frequency := 293.66, isMuted := none }

/-- Earth entry of `PLANETS` in `src/data/planets.ts`. -/
def earthP : Planet :=
  { id := "earth", name := "Earth", color := "#6B93D6", orbitalPeriod := 365,
    distanceFromSun := 1.0, radius := 1.0, musicalNote := "E",
    frequency := 329.63, isMuted := none }

/-- Mars entry of `PLANETS` in `src/data/planets.ts`. -/
def marsP : Planet :=
  { id := "mars", name := "Mars", color := "#CD5C5C", orbitalPeriod := 687,
    distanceFromSun := 1.52, radius := 0.53, musicalNote := "F",
    frequency := 349.23, isMuted := none }

/-- Jupiter entry of `PLANETS` in `src/data/planets.ts`. -/
def jupiterP : Planet :=
  { id := "jupiter", name := "Jupiter", color := "#D8CA9D", orbitalPeriod := 4333,
    distanceFromSun := 5.20, radius := 5.0, musicalNote := "G",
    frequency := 392.00, isMuted := none }

/-- Saturn entry of `PLANETS` in `src/data/planets.ts`. -/
def saturnP : Planet :=
  { id := "saturn", name := "Saturn", color := "#FAD5A5", orbitalPeriod := 10759,
    distanceFromSun := 9.58, radius := 4.2, musicalNote := "A",
    frequency := 440.00, isMuted := none }

/-- Uranus entry of `PLANETS` in `src/data/planets.ts`. -/
def uranusP : Planet :=
  { id := "uranus", name := "Uranus", color := "#4FD0E7", orbitalPeriod := 30687,
    distanceFromSun := 19.22, radius := 2.0, musicalNote := "B",
    frequency := 493.88, isMuted := none }

/-- Neptune entry of `PLANETS` in `src/data/planets.ts`.  Note the stored
distance is 30.05 AU (the audio engine's distance-to-frequency map hardcodes
39.48 as its "Neptune" endpoint, which differs from this table). -/
def neptuneP : Planet :=
  { id := "neptune", name := "Neptune", color := "#4B70DD", orbitalPeriod := 60190,
    distanceFromSun := 30.05, radius := 1.9, musicalNote := "C",
    frequency := 523.25, isMuted := none }

/-- `PLANETS` from `src/data/planets.ts`, sorted by distance from the sun.
This is the list imported by `CelestialAudioEngine` and by
`SolarSystemVisualization`. -/
def PLANETS : List Planet :=
  [mercuryP, venusP, earthP, marsP, jupiterP, saturnP, uranusP, neptuneP]

/-- `SUN_RADIUS = 20` from `src/data/planets.ts` (the module the
visualization imports it from). -/
def SUN_RADIUS : ℚ := 20

/-- `SCALE_FACTOR = 25` from `src/lib/planets-data.ts`, the module
`src/lib/orbital-mechanics.ts` imports `SCALE_FACTOR` from. -/
def SCALE_FACTOR : ℚ := 25

/-! ### JavaScript numeric primitives -/

/-- JavaScript truncation toward zero, used by the `%` operator. -/
noncomputable def jsTrunc (x : ℝ) : ℤ :=
  if 0 ≤ x then ⌊x⌋ else ⌈x⌉

/-- The JavaScript `%` operator on numbers: `a % b = a - b * trunc (a / b)`,
a remainder carrying the sign of the dividend. -/
noncomputable def jsMod (a b : ℝ) : ℝ :=
  a - b * jsTrunc (a / b)

/-- `Math.round(x * 100) / 100` — round to two decimal places, ties toward
`+∞` as JavaScript `Math.round` does. -/
noncomputable def round2 (x : ℝ) : ℝ :=
  ((⌊x * 100 + 1 / 2⌋ : ℤ) : ℝ) / 100

/-! ### Frequency mapper (`CelestialAudioEngine.mapDistanceToFrequency`) -/

/-- `CelestialAudioEngine.mapDistanceToFrequency` from
`src/lib/audioEngine.ts`: inverse power-law mapping of distance (AU) into the
200–800 Hz band, rounded to two decimals.  `Math.pow` with real exponent is
embedded as `Real.rpow`; the map is used by the engine only on the `PLANETS`
distances, all of which keep the base of the power nonnegative. -/
noncomputable def mapDistanceToFrequency (distanceFromSun : ℝ) : ℝ :=
  -- minDistance = 0.39 (Mercury), maxDistance = 39.48 ("Neptune" constant);
  -- normalizedDistance = (d - minDistance) / (maxDistance - minDistance);
  -- inverseFactor = 1 - normalizedDistance; minFreq = 200, maxFreq = 800;
  -- frequency = minFreq + (maxFreq - minFreq) * inverseFactor ** 0.7,
  -- rounded to 2 decimal places.
  round2 (200 + (800 - 200) *
    (1 - (distanceFromSun - 0.39) / (39.48 - 0.39)) ^ (0.7 : ℝ))

/-! ### Orbital model (`src/lib/orbital-mechanics.ts`) -/

/-- `PlanetPosition` from `src/types/index.ts`: the ephemeral per-tick
position record returned by `calculateOrbitPosition`. -/
structure PlanetPosition where
  x : ℝ
  y : ℝ
  angle : ℝ

/-- The planet's orbital period converted to seconds
(`planet.orbitalPeriod * 24 * 60 * 60` in `calculateOrbitPosition`). -/
def periodInSeconds (p : Planet) : ℚ :=
  p.orbitalPeriod * 24 * 60 * 60

/-- The angle computed by `calculateOrbitPosition`:
`(timeElapsed * speedMultiplier * angularVelocity) % (2 * Math.PI)` where
`angularVelocity = 2π / periodInSeconds`. -/
noncomputable def orbitAngle (p : Planet) (timeElapsed speedMultiplier : ℝ) : ℝ :=
  jsMod (timeElapsed * speedMultiplier * (2 * Real.pi / ((periodInSeconds p : ℚ) : ℝ)))
    (2 * Real.pi)

/-- `calculateOrbitPosition` from `src/lib/orbital-mechanics.ts`:
`orbitRadius = distanceFromSun * SCALE_FACTOR`, position on the circle of
that radius around `(centerX, centerY)` at `orbitAngle`.  The source's
default arguments (`speedMultiplier = 1000`, `centerX = 400`,
`centerY = 300`) are passed explicitly by callers of this embedding. -/
noncomputable def calculateOrbitPosition (p : Planet)
    (timeElapsed speedMultiplier centerX centerY : ℝ) : PlanetPosition :=
  { x := centerX + ((p.distanceFromSun * SCALE_FACTOR : ℚ) : ℝ) *
      Real.cos (orbitAngle p timeElapsed speedMultiplier),
    y := centerY + ((p.distanceFromSun * SCALE_FACTOR : ℚ) : ℝ) *
      Real.sin (orbitAngle p timeElapsed speedMultiplier),
    angle := orbitAngle p timeElapsed speedMultiplier }

/-! ### Visualization orbit layout (`SolarSystemVisualization.tsx`) -/

namespace Viz

/-- `centerX = width / 2`. -/
def centerX (width : ℚ) : ℚ := width / 2

/-- `centerY = height / 2`. -/
def centerY (height : ℚ) : ℚ := height / 2

/-- `availableRadius = Math.min(width, height) / 2 - 80`. -/
def availableRadius (width height : ℚ) : ℚ :=
  min width height / 2 - 80

/-- `orbitSpacing = (availableRadius / PLANETS.length) * 1.5`. -/
def orbitSpacing (width height : ℚ) : ℚ :=
  availableRadius width height / (PLANETS.length : ℚ) * 1.5

/-- `orbitRadius = orbitSpacing * (index + 1)` — the rendered orbit radius for
the planet at 0-based `index`, used identically in the initial layout, the
`animate` loop and the static orbit-ring drawing. -/
def orbitRadius (width height : ℚ) (index : ℕ) : ℚ :=
  orbitSpacing width height * (index + 1)

/-- `VISUAL_ORBITAL_SCALE = 0.01` inside `animate`. -/
def VISUAL_ORBITAL_SCALE : ℚ := 0.01

/-- The angle computed each frame by `animate`:
`(scaledElapsed / (orbitalPeriod * VISUAL_ORBITAL_SCALE)) * 2 * Math.PI`. -/
noncomputable def animateAngle (scaledElapsed : ℝ) (p : Planet) : ℝ :=
  scaledElapsed / ((p.orbitalPeriod : ℝ) * ((VISUAL_ORBITAL_SCALE : ℚ) : ℝ)) *
    2 * Real.pi

/-- The planet screen position computed each frame by `animate` for the
planet `p` at 0-based `index`. -/
noncomputable def animatePos (width height : ℚ) (scaledElapsed : ℝ)
    (p : Planet) (index : ℕ) : ℝ × ℝ :=
  (((centerX width : ℚ) : ℝ) +
     ((orbitRadius width height index : ℚ) : ℝ) * Real.cos (animateAngle scaledElapsed p),
   ((centerY height : ℚ) : ℝ) +
     ((orbitRadius width height index : ℚ) : ℝ) * Real.sin (animateAngle scaledElapsed p))

end Viz

/-! ### Audio engine state machine (`CelestialAudioEngine`) -/

/-- Error categories of `AudioError.type` in `src/lib/audioEngine.ts`. -/
inductive ErrorType where
  | initialization
  | playback
  | context
  | network
  | unknown
deriving DecidableEq

/-- `AudioError` from `src/lib/audioEngine.ts`. -/
structure AudioError where
  type : ErrorType
  message : String
  timestamp : ℕ
  recoverable : Bool
deriving DecidableEq

/-- `AudioContext.state` values tracked in `AudioState.contextState`. -/
inductive ContextState where
  | closed
  | running
  | suspended
  | unknown
deriving DecidableEq

/-- `AudioState` from `src/lib/audioEngine.ts` (engine lifecycle record). -/
structure AudioState where
  isInitialized : Bool
  isPlaying : Bool
  hasError : Bool
  error : Option AudioError
  contextState : ContextState

/-- `AudioSettings` from `src/lib/audioEngine.ts`. -/
structure AudioSettings where
  isPlaying : Bool
  volume : ℚ
  tempo : ℚ

/-- `PlanetAudioState` from `src/lib/audioEngine.ts`: the per-planet record
stored in the `planetStates` map. -/
structure PlanetAudioState where
  isMuted : Bool
  volume : ℚ
  frequency : ℝ

/-- The mutable fields of `CelestialAudioEngine` that its public methods read
or write.  The Web Audio graph is abstracted: `synths`/`loops` keep only the
planet ids present in the corresponding maps, `hasAudioContext` models
`this.audioContext !== null`, and `notified` records the errors delivered to
the `errorCallbacks` subscribers, in delivery order. -/
structure EngineState where
  synths : List String
  loops : List String
  isInitialized : Bool
  hasAudioContext : Bool
  planetStates : List (String × PlanetAudioState)
  settings : AudioSettings
  timeMultiplier : ℚ
  audioState : AudioState
  retryCount : ℕ
  maxRetries : ℕ
  notified : List AudioError

/-- The engine as built by the `CelestialAudioEngine` constructor. -/
def freshEngine : EngineState :=
  { synths := [], loops := [], isInitialized := false, hasAudioContext := false,
    planetStates := [],
    settings := { isPlaying := false, volume := 0.7, tempo := 120 },
    timeMultiplier := 1000,
    audioState := { isInitialized := false, isPlaying := false, hasError := false,
                    error := none, contextState := ContextState.unknown },
    retryCount := 0, maxRetries := 3, notified := [] }

/-- `this.planetStates.get(id)` — lookup in the per-planet state map. -/
def PSLookup (id : String) (l : List (String × PlanetAudioState)) :
    Option PlanetAudioState :=
  (l.find? (fun kv => kv.1 = id)).map (fun kv => kv.2)

/-- In-place mutation of the record stored under `id` (JS objects in the map
are mutated through the reference returned by `get`). -/
def PSSet (id : String) (f : PlanetAudioState → PlanetAudioState)
    (l : List (String × PlanetAudioState)) : List (String × PlanetAudioState) :=
  l.map (fun kv => if kv.1 = id then (kv.1, f kv.2) else kv)

/-- `this.loops.set(id, loop)` — a map insert, abstracted to the key set. -/
def loopSet (id : String) (loops : List String) : List String :=
  if loops.contains id then loops else id :: loops

/-- `reportError`: records the error on `audioState` and synchronously
notifies every registered error callback (modeled by appending to
`notified`; the trailing `notifyStateChange` touches no modeled field). -/
def reportError (e : AudioError) (s : EngineState) : EngineState :=
  { s with
    audioState := { s.audioState with hasError := true, error := some e },
    notified := s.notified ++ [e] }

/-- `clearError`: clears the error record and resets the retry counter. -/
def clearError (s : EngineState) : EngineState :=
  { s with
    audioState := { s.audioState with hasError := false, error := none },
    retryCount := 0 }

/-- `updateContextState`: with no audio context the state is `'unknown'`;
otherwise the live context's state is re-read (kept abstract here — the
field is left as the engine last recorded it). -/
def updateContextState (s : EngineState) : EngineState :=
  if s.hasAudioContext then s
  else { s with audioState := { s.audioState with contextState := ContextState.unknown } }

/-- Environment of `initialize()`: either the dynamic `import('tone')`
chain succeeds and a Web Audio context/gain node is constructible (with the
context in state `ctx`), or every import method fails. -/
inductive ToneEnv where
  | loaded (ctx : ContextState)
  | importFailed

/-- The `AudioError` built by the import-failure branch of `initialize()`. -/
def loadFailError (now : ℕ) : AudioError :=
  { type := ErrorType.initialization,
    message := "Audio failed to load, continuing without sound",
    timestamp := now, recoverable := false }

/-- `initialize()` from `src/lib/audioEngine.ts`, covering its two
non-throwing return paths.  If already initialized it returns at once.  If
every Tone.js import fails (`ToneEnv.importFailed`), the inner catch installs
a dummy audio engine, sets `isInitialized = true` and an `AudioState` with
`hasError = true` and a non-recoverable initialization error, and returns —
no exception escapes and no audio context is created.  Otherwise the success
path creates the master gain node (`hasAudioContext := true`), flips both
initialized flags, refreshes the context state and clears any previous
error.  (The path where Tone.js loads but gain-node creation throws feeds
the generic failure handler `handleEngineFailure` below.) -/
def initEngine (env : ToneEnv) (now : ℕ) (s : EngineState) : EngineState :=
  if s.isInitialized then s
  else
    match env with
    | ToneEnv.importFailed =>
        { s with
          isInitialized := true,
          audioState := { isInitialized := true, isPlaying := false,
                          hasError := true, error := some (loadFailError now),
                          contextState := ContextState.unknown } }
    | ToneEnv.loaded ctx =>
        clearError
          { s with
            isInitialized := true, hasAudioContext := true,
            audioState := { s.audioState with
                            isInitialized := true,
                            contextState := ctx } }

/-- `schedulePlanet(planetId)`: returns untouched unless the engine is
playing, a synth exists for the planet and its state is present and unmuted;
then it creates a repeating loop and stores it under the planet's id. -/
def schedulePlanet (id : String) (s : EngineState) : EngineState :=
  if s.settings.isPlaying = false then s
  else if s.synths.contains id = false then s
  else
    match PSLookup id s.planetStates with
    | none => s
    | some st => if st.isMuted then s else { s with loops := loopSet id s.loops }

/-- `startPlanetLoops()`: schedules every unmuted planet in `planetStates`
(the Transport start is a graph side effect outside the modeled state). -/
def startPlanetLoops (s : EngineState) : EngineState :=
  s.planetStates.foldl
    (fun acc kv => if kv.2.isMuted then acc else schedulePlanet kv.1 acc) s

/-- `stopPlanetLoops()`: disposes every loop and clears the `loops` map. -/
def stopPlanetLoops (s : EngineState) : EngineState :=
  { s with loops := [] }

/-- `initializePlanets(PLANETS)` on a working audio graph: one synth and one
`PlanetAudioState` per planet (`isMuted := planet.isMuted || false`,
`volume := 0.8`, frequency from `mapDistanceToFrequency`). -/
noncomputable def initPlanets (s : EngineState) : EngineState :=
  { s with
    synths := PLANETS.map (fun p => p.id),
    planetStates := PLANETS.map (fun p =>
      (p.id, { isMuted := p.isMuted.getD false, volume := 0.8,
               frequency := mapDistanceToFrequency ((p.distanceFromSun : ℚ) : ℝ) })) }

/-- The `AudioError` thrown and reported when `start()` finds no audio
context outside the degraded mode. -/
def noContextError (now : ℕ) : AudioError :=
  { type := ErrorType.playback, message := "Audio context not available",
    timestamp := now, recoverable := true }

/-- `start()` from `src/lib/audioEngine.ts`.  Auto-initializes if needed.
In the silent degraded mode (`audioContext === null` with `hasError`) it
only flips `isPlaying` on and returns — no exception.  With no context and
no recorded error it throws `Audio context not available` (reported to
subscribers; its bounded recovery re-invokes `start` itself and is modeled
by the caller).  On a working graph it lazily creates the planet synths,
runs `startPlanetLoops`, flips `isPlaying` on, refreshes the context state
and clears previous errors.  The pair's second component is `.ok ()` when
the call returns normally and `.error e` when it throws `e`. -/
noncomputable def start (env : ToneEnv) (now : ℕ) (s0 : EngineState) :
    EngineState × Except AudioError Unit :=
  let s := if s0.isInitialized then s0 else initEngine env now s0
  if s.hasAudioContext = false ∧ s.audioState.hasError = true then
    (updateContextState
      { s with settings := { s.settings with isPlaying := true },
               audioState := { s.audioState with isPlaying := true } },
     Except.ok ())
  else if s.hasAudioContext = false then
    (reportError (noContextError now) s, Except.error (noContextError now))
  else
    let s1 := if s.planetStates.isEmpty then initPlanets s else s
    let s2 := startPlanetLoops s1
    (clearError (updateContextState
      { s2 with settings := { s2.settings with isPlaying := true },
                audioState := { s2.audioState with isPlaying := true } }),
     Except.ok ())

/-- `stop()` from `src/lib/audioEngine.ts`.  In the silent degraded mode it
only flips `isPlaying` off.  Otherwise it stops and clears every planet
loop, zeroes the synth gains (a graph side effect) and flips `isPlaying`
off.  `stop` never throws: its catch swallows and reports any error, so the
embedding is a total function. -/
def stop (s : EngineState) : EngineState :=
  if s.hasAudioContext = false ∧ s.audioState.hasError = true then
    updateContextState
      { s with settings := { s.settings with isPlaying := false },
               audioState := { s.audioState with isPlaying := false } }
  else
    let s1 := stopPlanetLoops s
    updateContextState
      { s1 with settings := { s1.settings with isPlaying := false },
                audioState := { s1.audioState with isPlaying := false } }

/-- `getSettings()`: returns a copy of the settings record. -/
def getSettings (s : EngineState) : AudioSettings :=
  s.settings

/-- `setTempo(bpm)`: clamps to `[60, 180]` via
`Math.max(60, Math.min(180, bpm))`, then, if playing, tears down and
recreates every planet loop so the new rate takes effect. -/
def setTempo (bpm : ℚ) (s : EngineState) : EngineState :=
  let s1 := { s with settings := { s.settings with tempo := max 60 (min 180 bpm) } }
  if s1.settings.isPlaying then startPlanetLoops (stopPlanetLoops s1) else s1

/-- `setPlanetMute(planetId, isMuted)`: a no-op when the planet id is not in
`planetStates`; otherwise it sets the `isMuted` flag (only), immediately
zeroes the planet's gain when muting (a graph side effect), and re-schedules
the planet when unmuting while the engine is playing. -/
def setPlanetMute (id : String) (isMuted : Bool) (s : EngineState) : EngineState :=
  match PSLookup id s.planetStates with
  | none => s
  | some _ =>
      let s1 := { s with planetStates :=
                    PSSet id (fun st => { st with isMuted := isMuted }) s.planetStates }
      if isMuted then s1
      else if s1.settings.isPlaying then schedulePlanet id s1 else s1

/-- `togglePlanetMute(planetId)`: flips the stored flag via
`setPlanetMute`; a no-op when the planet id is absent. -/
def togglePlanetMute (id : String) (s : EngineState) : EngineState :=
  match PSLookup id s.planetStates with
  | none => s
  | some st => setPlanetMute id (!st.isMuted) s

/-- `setPlanetVolume(planetId, volume)`: a no-op when the planet id is
absent; otherwise stores `Math.max(0, Math.min(1, volume))` in the
planet's `volume` field (and nothing else). -/
def setPlanetVolume (id : String) (volume : ℚ) (s : EngineState) : EngineState :=
  match PSLookup id s.planetStates with
  | none => s
  | some _ =>
      { s with planetStates :=
                 PSSet id (fun st => { st with volume := max 0 (min 1 volume) }) s.planetStates }

/-- `attemptRecovery(error)`: refuses at once (returning `false` with the
state untouched) when the error is not recoverable or `retryCount` has
reached `maxRetries` (3); otherwise increments `retryCount` and runs the
error-type-specific recovery procedure — resume context / reinitialize /
restart playback — abstracted as the `recover` argument (`some s2` models a
branch that returned `true` leaving state `s2`; `none` models falling
through to `return false`, including the catch that swallows a recovery
exception). -/
def attemptRecovery (recover : EngineState → Option EngineState)
    (e : AudioError) (s : EngineState) : Bool × EngineState :=
  if e.recoverable = false ∨ s.maxRetries ≤ s.retryCount then (false, s)
  else
    let s1 := { s with retryCount := s.retryCount + 1 }
    match recover s1 with
    | some s2 => (true, s2)
    | none => (false, s1)

/-- The failure handler shared by `initialize`/`initializePlanets`/`start`:
`this.reportError(audioError); const recovered = await
this.attemptRecovery(audioError); if (!recovered) throw error;`.  The error
is delivered to subscribers by `reportError` before recovery is consulted. -/
def handleEngineFailure (recover : EngineState → Option EngineState)
    (e : AudioError) (s : EngineState) : EngineState × Except AudioError Unit :=
  let s1 := reportError e s
  match attemptRecovery recover e s1 with
  | (true, s2) => (s2, Except.ok ())
  | (false, s2) => (s2, Except.error e)

/-- A concrete engine state whose per-planet map holds exactly one entry
(for Mars), used to instantiate the per-planet-state properties. -/
def marsOnlyEngine : EngineState :=
  { freshEngine with
    synths := ["mars"],
    planetStates := [("mars", { isMuted := false, volume := 0.8, frequency := 349 })] }

/-! ## Lemmas about the embedded operations -/

lemma PSLookup_PSSet_self (id : String) (f : PlanetAudioState → PlanetAudioState)
    (l : List (String × PlanetAudioState)) :
    PSLookup id (PSSet id f l) = (PSLookup id l).map f := by
  induction l with
  | nil => rfl
  | cons kv t ih =>
      rcases eq_or_ne kv.1 id with h | h
      · simp [PSSet, PSLookup, List.find?, h]
      · simp only [PSSet, PSLookup, List.map_cons, if_neg h, List.find?,
          decide_eq_false h] at ih ⊢
        exact ih

lemma schedulePlanet_planetStates (id : String) (s : EngineState) :
    (schedulePlanet id s).planetStates = s.planetStates := by
  unfold schedulePlanet
  repeat' split
  all_goals rfl

lemma schedulePlanet_settings (id : String) (s : EngineState) :
    (schedulePlanet id s).settings = s.settings := by
  unfold schedulePlanet
  repeat' split
  all_goals rfl

lemma startPlanetLoops_foldl_settings
    (l : List (String × PlanetAudioState)) (acc : EngineState) :
    (l.foldl (fun a kv => if kv.2.isMuted then a else schedulePlanet kv.1 a) acc).settings
      = acc.settings := by
  induction l generalizing acc with
  | nil => rfl
  | cons kv t ih =>
      simp only [List.foldl_cons]
      by_cases h : kv.2.isMuted
      · rw [if_pos h]
        exact ih acc
      · rw [if_neg h, ih, schedulePlanet_settings]

lemma startPlanetLoops_settings (s : EngineState) :
    (startPlanetLoops s).settings = s.settings :=
  startPlanetLoops_foldl_settings s.planetStates s

lemma startPlanetLoops_foldl_planetStates
    (l : List (String × PlanetAudioState)) (acc : EngineState) :
    (l.foldl (fun a kv => if kv.2.isMuted then a else schedulePlanet kv.1 a) acc).planetStates
      = acc.planetStates := by
  induction l generalizing acc with
  | nil => rfl
  | cons kv t ih =>
      simp only [List.foldl_cons]
      by_cases h : kv.2.isMuted
      · rw [if_pos h]
        exact ih acc
      · rw [if_neg h, ih, schedulePlanet_planetStates]

lemma startPlanetLoops_planetStates (s : EngineState) :
    (startPlanetLoops s).planetStates = s.planetStates :=
  startPlanetLoops_foldl_planetStates s.planetStates s

/-! ## Claim theorems -/

/-- C7.  For every numeric input `x`, `setTempo(x)` followed by
`getSettings()` yields a tempo equal to `clamp(x, 60, 180)` — stated both in
the source's form `max 60 (min 180 x)` and in the conventional clamp form
`min 180 (max 60 x)`; the two coincide.  Loop teardown and rescheduling
while playing leaves the settings record untouched. -/
theorem tempo_roundtrip_clamp (x : ℚ) (s : EngineState) :
    (getSettings (setTempo x s)).tempo = max 60 (min 180 x) ∧
    (getSettings (setTempo x s)).tempo = min 180 (max 60 x) := by
  have h1 : (getSettings (setTempo x s)).tempo = max 60 (min 180 x) := by
    unfold setTempo getSettings
    dsimp only
    split
    · rw [startPlanetLoops_settings]
      rfl
    · rfl
  refine ⟨h1, ?_⟩
  rw [h1, max_min_distrib_left]
  norm_num

lemma setPlanetVolume_planetStates_of_some {id : String} {st : PlanetAudioState}
    {s : EngineState} (v : ℚ) (h : PSLookup id s.planetStates = some st) :
    (setPlanetVolume id v s).planetStates
      = PSSet id (fun st => { st with volume := max 0 (min 1 v) }) s.planetStates := by
  unfold setPlanetVolume
  rw [h]

lemma setPlanetMute_planetStates_of_some {id : String} {st : PlanetAudioState}
    {s : EngineState} (b : Bool) (h : PSLookup id s.planetStates = some st) :
    (setPlanetMute id b s).planetStates
      = PSSet id (fun st => { st with isMuted := b }) s.planetStates := by
  unfold setPlanetMute
  rw [h]
  cases b
  case false =>
    dsimp only
    rw [if_neg (by simp)]
    split
    · rw [schedulePlanet_planetStates]
    · rfl
  case true => rfl

/-- C9.  For a planet id present in the per-planet state map, the call
sequence `setPlanetVolume(id, 0.3); setPlanetMute(id, true);
setPlanetMute(id, false)` leaves the stored volume at 0.3 and the mute flag
cleared: muting and unmuting touch only the `isMuted` field, never the
`volume` field. -/
theorem mute_cycle_preserves_planet_volume (s : EngineState) (id : String)
    (h : (PSLookup id s.planetStates).isSome = true) :
    (PSLookup id
        (setPlanetMute id false
          (setPlanetMute id true (setPlanetVolume id 0.3 s))).planetStates).map
        (fun st => st.volume) = some 0.3 ∧
    (PSLookup id
        (setPlanetMute id false
          (setPlanetMute id true (setPlanetVolume id 0.3 s))).planetStates).map
        (fun st => st.isMuted) = some false := by
  obtain ⟨st, hst⟩ := Option.isSome_iff_exists.mp h
  have l1 : PSLookup id (setPlanetVolume id 0.3 s).planetStates
      = some { st with volume := max 0 (min 1 0.3) } := by
    rw [setPlanetVolume_planetStates_of_some 0.3 hst, PSLookup_PSSet_self, hst]
    rfl
  have l2 : PSLookup id (setPlanetMute id true (setPlanetVolume id 0.3 s)).planetStates
      = some { st with volume := max 0 (min 1 0.3), isMuted := true } := by
    rw [setPlanetMute_planetStates_of_some true l1, PSLookup_PSSet_self, l1]
    rfl
  have l3 : PSLookup id (setPlanetMute id false
        (setPlanetMute id true (setPlanetVolume id 0.3 s))).planetStates
      = some { st with volume := max 0 (min 1 0.3), isMuted := false } := by
    rw [setPlanetMute_planetStates_of_some false l2, PSLookup_PSSet_self, l2]
    rfl
  rw [l3]
  norm_num [Option.map]

/-- Witness for C9 at a concrete engine state holding a Mars entry. -/
theorem mute_cycle_preserves_planet_volume_witness :
    (PSLookup "mars"
        (setPlanetMute "mars" false
          (setPlanetMute "mars" true
            (setPlanetVolume "mars" 0.3 marsOnlyEngine))).planetStates).map
        (fun st => st.volume) = some 0.3 :=
  (mute_cycle_preserves_planet_volume marsOnlyEngine "mars" (by decide)).1

/-- C10.  For a planet id absent from the per-planet state map,
`setPlanetMute`, `togglePlanetMute` and `setPlanetVolume` are no-ops: they
do not throw and return the engine state fully unchanged. -/
theorem absent_planet_ops_are_noops (s : EngineState) (id : String)
    (b : Bool) (v : ℚ) (h : (PSLookup id s.planetStates).isSome = false) :
    setPlanetMute id b s = s ∧ togglePlanetMute id s = s ∧
    setPlanetVolume id v s = s := by
  have hn : PSLookup id s.planetStates = none := by
    cases hc : PSLookup id s.planetStates with
    | none => rfl
    | some st => rw [hc] at h; simp at h
  refine ⟨?_, ?_, ?_⟩
  · unfold setPlanetMute
    rw [hn]
  · unfold togglePlanetMute
    rw [hn]
  · unfold setPlanetVolume
    rw [hn]

/-- Witness for C10 at a concrete engine state that has a Mars entry but no
entry for the queried id. -/
theorem absent_planet_ops_are_noops_witness :
    setPlanetMute "pluto" true marsOnlyEngine = marsOnlyEngine ∧
    togglePlanetMute "pluto" marsOnlyEngine = marsOnlyEngine ∧
    setPlanetVolume "pluto" 0.5 marsOnlyEngine = marsOnlyEngine :=
  absent_planet_ops_are_noops marsOnlyEngine "pluto" true 0.5 (by decide)

/-- C1.  When the audio subsystem cannot be loaded, `initialize()` returns
normally and leaves the engine in the silent degraded state
(`isInitialized = true`, `hasError = true`, no audio context); from any such
degraded state, `start()` returns normally (no throw) with `isPlaying = true`
and `stop()` returns normally with `isPlaying = false`, and both preserve the
degraded state, so every subsequent `start()`/`stop()` also completes without
throwing. -/
theorem silent_degradation_on_audio_load_failure (now : ℕ) (s : EngineState)
    (hInit : s.isInitialized = false) (hCtx : s.hasAudioContext = false) :
    ((initEngine ToneEnv.importFailed now s).isInitialized = true ∧
     (initEngine ToneEnv.importFailed now s).audioState.isInitialized = true ∧
     (initEngine ToneEnv.importFailed now s).audioState.hasError = true ∧
     (initEngine ToneEnv.importFailed now s).hasAudioContext = false) ∧
    (∀ (env : ToneEnv) (n : ℕ) (s2 : EngineState),
       s2.isInitialized = true → s2.hasAudioContext = false →
       s2.audioState.hasError = true →
       (start env n s2).2 = Except.ok () ∧
       (start env n s2).1.settings.isPlaying = true ∧
       (start env n s2).1.audioState.isPlaying = true ∧
       (start env n s2).1.isInitialized = true ∧
       (start env n s2).1.hasAudioContext = false ∧
       (start env n s2).1.audioState.hasError = true) ∧
    (∀ s2 : EngineState,
       s2.isInitialized = true → s2.hasAudioContext = false →
       s2.audioState.hasError = true →
       (stop s2).settings.isPlaying = false ∧
       (stop s2).audioState.isPlaying = false ∧
       (stop s2).isInitialized = true ∧
       (stop s2).hasAudioContext = false ∧
       (stop s2).audioState.hasError = true) := by
  refine ⟨?_, ?_, ?_⟩
  · rw [initEngine, if_neg (by simp [hInit])]
    simp [hCtx]
  · intro env n s2 h1 h2 h3
    rw [start]
    rw [if_pos h1, if_pos (by exact ⟨h2, h3⟩)]
    simp [updateContextState, h1, h2, h3]
  · intro s2 h1 h2 h3
    rw [stop, if_pos (by exact ⟨h2, h3⟩)]
    simp [updateContextState, h1, h2, h3]

/-- Witness for C1: the fresh engine, a failed audio load, then one
`start()` and one `stop()`. -/
theorem silent_degradation_on_audio_load_failure_witness :
    (initEngine ToneEnv.importFailed 0 freshEngine).isInitialized = true ∧
    (start ToneEnv.importFailed 0 (initEngine ToneEnv.importFailed 0 freshEngine)).2
      = Except.ok () ∧
    (start ToneEnv.importFailed 0 (initEngine ToneEnv.importFailed 0 freshEngine)).1.settings.isPlaying
      = true ∧
    (stop (start ToneEnv.importFailed 0 (initEngine ToneEnv.importFailed 0 freshEngine)).1).settings.isPlaying
      = false := by
  have h := silent_degradation_on_audio_load_failure 0 freshEngine (by decide) (by decide)
  obtain ⟨⟨hi1, hi2, hi3, hi4⟩, hstart, hstop⟩ := h
  have hs := hstart ToneEnv.importFailed 0 (initEngine ToneEnv.importFailed 0 freshEngine) hi1 hi4 hi3
  obtain ⟨hs1, hs2, hs3, hs4, hs5, hs6⟩ := hs
  have ht := hstop (start ToneEnv.importFailed 0 (initEngine ToneEnv.importFailed 0 freshEngine)).1 hs4 hs5 hs6
  exact ⟨hi1, hs1, hs2, ht.1⟩

/-- C8 counterexample.  The claim that an error is surfaced to subscribers
only after retries are exhausted is false: handling a recoverable failure in
a fresh engine notifies the subscribers at once (via `reportError`, before
recovery is attempted), at a point where only 1 of the 3 permitted retries
has been used. -/
theorem error_surfaced_before_retries_exhausted :
    (handleEngineFailure (fun _ => none)
        { type := ErrorType.initialization, message := "init failed",
          timestamp := 0, recoverable := true } freshEngine).1.notified
      = [{ type := ErrorType.initialization, message := "init failed",
           timestamp := 0, recoverable := true }] ∧
    (handleEngineFailure (fun _ => none)
        { type := ErrorType.initialization, message := "init failed",
          timestamp := 0, recoverable := true } freshEngine).1.retryCount = 1 ∧
    (handleEngineFailure (fun _ => none)
        { type := ErrorType.initialization, message := "init failed",
          timestamp := 0, recoverable := true } freshEngine).1.maxRetries = 3 := by
  refine ⟨?_, ?_, ?_⟩ <;> rfl

/-- C8 (amended).  A recovery attempt is made only for errors with
`recoverable = true` and only while fewer than `maxRetries = 3` attempts
have been used — `attemptRecovery` returns `false` with the state untouched
once the retry count reaches the bound or when the error is not recoverable;
but the error is surfaced to the subscribers immediately when it is
reported, before recovery is consulted, not only after retries are
exhausted (the `recover` frame condition says the abstracted recovery
procedure does not itself touch the notification log). -/
theorem recovery_bounded_and_error_surfaced_immediately :
    (∀ (recover : EngineState → Option EngineState) (e : AudioError)
       (s : EngineState),
       e.recoverable = false ∨ s.maxRetries ≤ s.retryCount →
       attemptRecovery recover e s = (false, s)) ∧
    (∀ (recover : EngineState → Option EngineState) (e : AudioError)
       (s : EngineState),
       (∀ t t2, recover t = some t2 → t2.notified = t.notified) →
       (handleEngineFailure recover e s).1.notified = s.notified ++ [e]) := by
  constructor
  · intro recover e s hguard
    rw [attemptRecovery, if_pos hguard]
  · intro recover e s hframe
    rw [handleEngineFailure]
    by_cases hg : e.recoverable = false ∨
        (reportError e s).maxRetries ≤ (reportError e s).retryCount
    · rw [attemptRecovery, if_pos hg]
      simp [reportError]
    · rw [attemptRecovery, if_neg hg]
      cases hr : recover { reportError e s with
          retryCount := (reportError e s).retryCount + 1 } with
      | none =>
          dsimp only at hr ⊢
          rw [hr]
          simp [reportError]
      | some s2 =>
          have hn := hframe _ _ hr
          dsimp only at hr ⊢
          rw [hr]
          dsimp only at hn
          simp [reportError] at hn
          simp [reportError, hn]

/-- Witness for C8: the guard refuses a non-recoverable error and refuses
once the three retries are used up, and the failure handler notifies the
subscribers of the reported error at once. -/
theorem recovery_bounded_and_error_surfaced_immediately_witness :
    attemptRecovery (fun _ => none)
        { type := ErrorType.playback, message := "boom", timestamp := 0,
          recoverable := false } freshEngine = (false, freshEngine) ∧
    attemptRecovery (fun _ => none)
        { type := ErrorType.playback, message := "boom", timestamp := 0,
          recoverable := true } { freshEngine with retryCount := 3 }
      = (false, { freshEngine with retryCount := 3 }) ∧
    (handleEngineFailure (fun _ => none)
        { type := ErrorType.playback, message := "boom", timestamp := 0,
          recoverable := true } freshEngine).1.notified
      = freshEngine.notified ++
          [{ type := ErrorType.playback, message := "boom", timestamp := 0,
             recoverable := true }] := by
  refine ⟨?_, ?_, ?_⟩
  · exact recovery_bounded_and_error_surfaced_immediately.1 _ _ _ (Or.inl (by decide))
  · exact recovery_bounded_and_error_surfaced_immediately.1 _ _ _ (Or.inr (by decide))
  · exact recovery_bounded_and_error_surfaced_immediately.2 _ _ _
      (by intro t t2 h; cases h)

/-! ## Lemmas about the JavaScript numeric primitives -/

lemma jsTrunc_of_nonneg {x : ℝ} (h : 0 ≤ x) : jsTrunc x = ⌊x⌋ :=
  if_pos h

lemma jsMod_of_nonneg {a b : ℝ} (ha : 0 ≤ a) (hb : 0 < b) :
    jsMod a b = a - b * ⌊a / b⌋ := by
  unfold jsMod
  rw [jsTrunc_of_nonneg (div_nonneg ha hb.le)]

lemma jsMod_add_nat_mul {a b : ℝ} (k : ℕ) (ha : 0 ≤ a) (hb : 0 < b) :
    jsMod (a + (k : ℝ) * b) b = jsMod a b := by
  have h1 : (0 : ℝ) ≤ a + (k : ℝ) * b := by positivity
  rw [jsMod_of_nonneg h1 hb, jsMod_of_nonneg ha hb]
  have h2 : (a + (k : ℝ) * b) / b = a / b + (k : ℝ) := by
    field_simp
  rw [h2, Int.floor_add_nat]
  push_cast
  ring

lemma jsMod_lt {a b : ℝ} (hb : 0 < b) : jsMod a b < b := by
  unfold jsMod jsTrunc
  have h3 : b * (a / b) = a := by field_simp
  split
  · have h1 : a / b < (⌊a / b⌋ : ℝ) + 1 := Int.lt_floor_add_one _
    nlinarith
  · have h1 : a / b ≤ (⌈a / b⌉ : ℝ) := Int.le_ceil _
    nlinarith

lemma neg_lt_jsMod {a b : ℝ} (hb : 0 < b) : -b < jsMod a b := by
  unfold jsMod jsTrunc
  have h3 : b * (a / b) = a := by field_simp
  split
  · have h1 : (⌊a / b⌋ : ℝ) ≤ a / b := Int.floor_le _
    nlinarith
  · have h1 : (⌈a / b⌉ : ℝ) < a / b + 1 := Int.ceil_lt_add_one _
    nlinarith

lemma jsMod_nonpos {a b : ℝ} (ha : a ≤ 0) (hb : 0 < b) : jsMod a b ≤ 0 := by
  unfold jsMod jsTrunc
  have h3 : b * (a / b) = a := by field_simp
  split
  · rename_i h
    have h0 : (0 : ℤ) ≤ ⌊a / b⌋ := Int.floor_nonneg.mpr h
    have h1 : (0 : ℝ) ≤ b * (⌊a / b⌋ : ℝ) :=
      mul_nonneg hb.le (by exact_mod_cast h0)
    linarith
  · have h1 : a / b ≤ (⌈a / b⌉ : ℝ) := Int.le_ceil _
    nlinarith

lemma jsMod_zero_left (b : ℝ) : jsMod 0 b = 0 := by
  unfold jsMod jsTrunc
  norm_num

lemma round2_mono {x y : ℝ} (h : x ≤ y) : round2 x ≤ round2 y := by
  unfold round2
  have hf : ⌊x * 100 + 1 / 2⌋ ≤ ⌊y * 100 + 1 / 2⌋ :=
    Int.floor_le_floor (by linarith)
  have hc : ((⌊x * 100 + 1 / 2⌋ : ℤ) : ℝ) ≤ ((⌊y * 100 + 1 / 2⌋ : ℤ) : ℝ) := by
    exact_mod_cast hf
  linarith

lemma round2_intCast (k : ℤ) : round2 ((k : ℤ) : ℝ) = k := by
  unfold round2
  have hfl : ⌊(k : ℝ) * 100 + 1 / 2⌋ = k * 100 := by
    rw [Int.floor_eq_iff]
    constructor
    · push_cast
      linarith
    · push_cast
      linarith
  rw [hfl]
  push_cast
  ring

lemma periodInSeconds_cast_pos {p : Planet} (hP : 0 < p.orbitalPeriod) :
    (0 : ℝ) < ((periodInSeconds p : ℚ) : ℝ) := by
  have hq : (0 : ℚ) < periodInSeconds p := by
    unfold periodInSeconds
    positivity
  exact_mod_cast hq

/-- C5.  With the source's default speed multiplier (1000), advancing the
elapsed time by the planet's orbital period expressed in the same units
(seconds) returns exactly the same `calculateOrbitPosition` output — angle
and position: the raw phase grows by 1000 full turns, which the modulo
`2π` discards. -/
theorem orbit_position_periodic (p : Planet) (hP : 0 < p.orbitalPeriod)
    (t : ℝ) (ht : 0 ≤ t) (cX cY : ℝ) :
    calculateOrbitPosition p (t + ((periodInSeconds p : ℚ) : ℝ)) 1000 cX cY =
    calculateOrbitPosition p t 1000 cX cY := by
  have hPs : (0 : ℝ) < ((periodInSeconds p : ℚ) : ℝ) := periodInSeconds_cast_pos hP
  have h2pi : (0 : ℝ) < 2 * Real.pi := by positivity
  have hangle : orbitAngle p (t + ((periodInSeconds p : ℚ) : ℝ)) 1000
      = orbitAngle p t 1000 := by
    unfold orbitAngle
    have hω : (0 : ℝ) < 2 * Real.pi / ((periodInSeconds p : ℚ) : ℝ) := by positivity
    have hk : (t + ((periodInSeconds p : ℚ) : ℝ)) * 1000 *
          (2 * Real.pi / ((periodInSeconds p : ℚ) : ℝ))
        = t * 1000 * (2 * Real.pi / ((periodInSeconds p : ℚ) : ℝ)) +
          ((1000 : ℕ) : ℝ) * (2 * Real.pi) := by
      field_simp
      ring
    rw [hk]
    exact jsMod_add_nat_mul 1000 (by positivity) h2pi
  unfold calculateOrbitPosition
  rw [hangle]

/-- Witness for C5 at Mercury with elapsed time 0 and the default center. -/
theorem orbit_position_periodic_witness :
    calculateOrbitPosition mercuryP ((0 : ℝ) + ((periodInSeconds mercuryP : ℚ) : ℝ)) 1000 400 300 =
    calculateOrbitPosition mercuryP 0 1000 400 300 :=
  orbit_position_periodic mercuryP (by decide) 0 le_rfl 400 300

/-- C6 counterexample.  A negative elapsed time does not yield the start
angle: at Mercury (period 88 days) with the default multiplier 1000,
elapsed time −1900.8 s gives a raw phase of −π/2, and the JS `%` operator
keeps the dividend's sign, so the returned angle is −π/2 ≠ 0, while elapsed
time 0 returns the start angle 0. -/
theorem negative_time_yields_nonstart_angle :
    (calculateOrbitPosition mercuryP (-(9504 / 5)) 1000 400 300).angle ≠
    (calculateOrbitPosition mercuryP 0 1000 400 300).angle := by
  show orbitAngle mercuryP (-(9504 / 5)) 1000 ≠ orbitAngle mercuryP 0 1000
  unfold orbitAngle
  have hP : ((periodInSeconds mercuryP : ℚ) : ℝ) = 7603200 := by
    norm_num [periodInSeconds, mercuryP]
  rw [hP]
  have hz : (0 : ℝ) * 1000 * (2 * Real.pi / 7603200) = 0 := by ring
  rw [hz, jsMod_zero_left]
  have hraw : (-(9504 / 5) : ℝ) * 1000 * (2 * Real.pi / 7603200)
      = -(Real.pi / 2) := by
    field_simp
    ring
  rw [hraw]
  unfold jsMod jsTrunc
  have hx : -(Real.pi / 2) / (2 * Real.pi) = -(1 / 4 : ℝ) := by
    have hpi := Real.pi_ne_zero
    field_simp
    ring
  rw [hx, if_neg (by norm_num)]
  have hc : ⌈(-(1 / 4) : ℝ)⌉ = 0 := by
    rw [Int.ceil_eq_iff]
    norm_num
  rw [hc]
  have hpi := Real.pi_pos
  intro hcontra
  norm_num at hcontra
  linarith

/-- C6 (amended).  For every planet with positive orbital period: the
returned angle is the raw phase modulo 2π and always lies strictly between
−2π and 2π; a zero elapsed time yields the start angle 0 and the start
position; a zero or negative elapsed time is a valid input producing a
finite, nonpositive angle (in general not the start angle, see the
counterexample); and a speed multiplier of 0 freezes motion at the start
position, with no NaN and no division by zero. -/
theorem orbit_edge_policy (p : Planet) (hP : 0 < p.orbitalPeriod)
    (t m cX cY : ℝ) :
    (-(2 * Real.pi) < (calculateOrbitPosition p t m cX cY).angle ∧
     (calculateOrbitPosition p t m cX cY).angle < 2 * Real.pi) ∧
    (calculateOrbitPosition p 0 m cX cY
      = { x := cX + ((p.distanceFromSun * SCALE_FACTOR : ℚ) : ℝ), y := cY,
          angle := 0 }) ∧
    (t ≤ 0 → 0 ≤ m → (calculateOrbitPosition p t m cX cY).angle ≤ 0) ∧
    (calculateOrbitPosition p t 0 cX cY
      = { x := cX + ((p.distanceFromSun * SCALE_FACTOR : ℚ) : ℝ), y := cY,
          angle := 0 }) := by
  have hPs : (0 : ℝ) < ((periodInSeconds p : ℚ) : ℝ) := periodInSeconds_cast_pos hP
  have h2pi : (0 : ℝ) < 2 * Real.pi := by positivity
  have hω : (0 : ℝ) < 2 * Real.pi / ((periodInSeconds p : ℚ) : ℝ) := by positivity
  have hzero : ∀ u : ℝ, orbitAngle p 0 u = 0 := by
    intro u
    unfold orbitAngle
    rw [show (0 : ℝ) * u * (2 * Real.pi / ((periodInSeconds p : ℚ) : ℝ)) = 0 by ring]
    exact jsMod_zero_left _
  have hfreeze : orbitAngle p t 0 = 0 := by
    unfold orbitAngle
    rw [show t * 0 * (2 * Real.pi / ((periodInSeconds p : ℚ) : ℝ)) = 0 by ring]
    exact jsMod_zero_left _
  refine ⟨⟨neg_lt_jsMod h2pi, jsMod_lt h2pi⟩, ?_, ?_, ?_⟩
  · unfold calculateOrbitPosition
    rw [hzero]
    simp [Real.cos_zero, Real.sin_zero]
  · intro ht hm
    show orbitAngle p t m ≤ 0
    unfold orbitAngle
    have h1 : t * m ≤ 0 := mul_nonpos_iff.mpr (Or.inr ⟨ht, hm⟩)
    have h2 : t * m * (2 * Real.pi / ((periodInSeconds p : ℚ) : ℝ)) ≤ 0 :=
      mul_nonpos_iff.mpr (Or.inr ⟨h1, hω.le⟩)
    exact jsMod_nonpos h2 h2pi
  · unfold calculateOrbitPosition
    rw [hfreeze]
    simp [Real.cos_zero, Real.sin_zero]

/-- Witness for C6 at Mercury with a negative elapsed time and a positive
speed multiplier. -/
theorem orbit_edge_policy_witness :
    (calculateOrbitPosition mercuryP (-5) 2 400 300).angle < 2 * Real.pi ∧
    (calculateOrbitPosition mercuryP (-5) 2 400 300).angle ≤ 0 ∧
    calculateOrbitPosition mercuryP (-5) 0 400 300
      = { x := 400 + ((mercuryP.distanceFromSun * SCALE_FACTOR : ℚ) : ℝ),
          y := 300, angle := 0 } := by
  have h := orbit_edge_policy mercuryP (by decide) (-5) 2 400 300
  exact ⟨h.1.2, h.2.2.1 (by norm_num) (by norm_num), h.2.2.2⟩

/-! ## Lemmas about the frequency mapper -/

lemma planets_distance_le :
    ∀ p ∈ PLANETS, p.distanceFromSun ≤ 39.48 := by
  intro p hp
  fin_cases hp <;>
    norm_num [mercuryP, venusP, earthP, marsP, jupiterP, saturnP, uranusP,
      neptuneP]

lemma mapDistanceToFrequency_antitone {d e : ℝ} (hde : d ≤ e)
    (he : e ≤ 39.48) :
    mapDistanceToFrequency e ≤ mapDistanceToFrequency d := by
  unfold mapDistanceToFrequency
  apply round2_mono
  have h1 : (0 : ℝ) ≤ 1 - (e - 0.39) / (39.48 - 0.39) := by
    rw [sub_nonneg, div_le_one (by norm_num)]
    linarith
  have h2 : 1 - (e - 0.39) / (39.48 - 0.39)
      ≤ 1 - (d - 0.39) / (39.48 - 0.39) := by
    have hdiv : (d - 0.39) / (39.48 - 0.39) ≤ (e - 0.39) / (39.48 - 0.39) := by
      gcongr
    linarith
  have h3 := Real.rpow_le_rpow h1 h2 (by norm_num : (0 : ℝ) ≤ 0.7)
  nlinarith [h3]

lemma map_mercury :
    mapDistanceToFrequency ((mercuryP.distanceFromSun : ℚ) : ℝ) = 800 := by
  have hd : ((mercuryP.distanceFromSun : ℚ) : ℝ) = 0.39 := by
    norm_num [mercuryP]
  rw [hd]
  unfold mapDistanceToFrequency
  have hbase : (1 - ((0.39 : ℝ) - 0.39) / (39.48 - 0.39)) = 1 := by norm_num
  rw [hbase, Real.one_rpow]
  have h800 : (200 + (800 - 200) * 1 : ℝ) = ((800 : ℤ) : ℝ) := by norm_num
  rw [h800, round2_intCast]
  norm_num

lemma map_neptune_le :
    mapDistanceToFrequency ((neptuneP.distanceFromSun : ℚ) : ℝ) ≤ 500 := by
  have hd : ((neptuneP.distanceFromSun : ℚ) : ℝ) = 30.05 := by
    norm_num [neptuneP]
  rw [hd]
  unfold mapDistanceToFrequency
  have key : ∀ x : ℝ, 0 < x → x ≤ 1 / 4 →
      round2 (200 + (800 - 200) * x ^ (0.7 : ℝ)) ≤ 500 := by
    intro x hx0 hx1
    have h1 : x ^ (0.7 : ℝ) ≤ x ^ ((1 : ℝ) / 2) :=
      Real.rpow_le_rpow_of_exponent_ge hx0 (by linarith) (by norm_num)
    have h2 : x ^ ((1 : ℝ) / 2) = Real.sqrt x := (Real.sqrt_eq_rpow x).symm
    have h3 : Real.sqrt x ≤ 1 / 2 := by
      have hs : Real.sqrt x ≤ Real.sqrt (1 / 4) := Real.sqrt_le_sqrt hx1
      have h4 : Real.sqrt (1 / 4 : ℝ) = 1 / 2 := by
        rw [show (1 / 4 : ℝ) = (1 / 2) ^ 2 by norm_num]
        exact Real.sqrt_sq (by norm_num)
      linarith
    have h5 : (200 + (800 - 200) * x ^ (0.7 : ℝ) : ℝ) ≤ 500 := by nlinarith
    have h6 : round2 (500 : ℝ) = 500 := by
      rw [show (500 : ℝ) = ((500 : ℤ) : ℝ) by norm_num, round2_intCast]
    have h7 := round2_mono h5
    linarith
  exact key _ (by norm_num) (by norm_num)

/-- C3.  Across the full planet set, the distance-to-frequency mapping is
monotone non-increasing in `distanceFromSun`; and Mercury's mapped frequency
(distance 0.39 AU) is strictly greater than Neptune's. -/
theorem frequency_antitone_and_mercury_gt_neptune :
    (∀ p q : Planet, p ∈ PLANETS → q ∈ PLANETS →
       p.distanceFromSun ≤ q.distanceFromSun →
       mapDistanceToFrequency ((q.distanceFromSun : ℚ) : ℝ)
         ≤ mapDistanceToFrequency ((p.distanceFromSun : ℚ) : ℝ)) ∧
    mapDistanceToFrequency ((neptuneP.distanceFromSun : ℚ) : ℝ)
      < mapDistanceToFrequency ((mercuryP.distanceFromSun : ℚ) : ℝ) := by
  constructor
  · intro p q hp hq hpq
    apply mapDistanceToFrequency_antitone
    · exact_mod_cast hpq
    · have hb := planets_distance_le q hq
      have hbr : ((q.distanceFromSun : ℚ) : ℝ) ≤ ((39.48 : ℚ) : ℝ) := by
        exact_mod_cast hb
      calc ((q.distanceFromSun : ℚ) : ℝ) ≤ ((39.48 : ℚ) : ℝ) := hbr
        _ = 39.48 := by norm_num
  · rw [map_mercury]
    have := map_neptune_le
    linarith

/-- Witness for C3 at the pair (Mercury, Neptune). -/
theorem frequency_antitone_witness :
    mapDistanceToFrequency ((neptuneP.distanceFromSun : ℚ) : ℝ)
      ≤ mapDistanceToFrequency ((mercuryP.distanceFromSun : ℚ) : ℝ) :=
  frequency_antitone_and_mercury_gt_neptune.1 mercuryP neptuneP
    (by simp [PLANETS]) (by simp [PLANETS]) (by norm_num [mercuryP, neptuneP])

/-- C4.  For Mercury (`distanceFromSun = 0.39`), the mapped audio frequency
lies within the band [700, 800] Hz — it is exactly 800 Hz. -/
theorem mercury_frequency_in_band :
    700 ≤ mapDistanceToFrequency ((mercuryP.distanceFromSun : ℚ) : ℝ) ∧
    mapDistanceToFrequency ((mercuryP.distanceFromSun : ℚ) : ℝ) ≤ 800 := by
  rw [map_mercury]
  norm_num

/-- C2 counterexample.  The rendered orbit radius carries no `SUN_RADIUS`
offset: at the default 900×700 container, the radii of the first two orbits
are `50.625` and `101.25`, so no spacing value `sp` satisfies
`orbitRadius i = SUN_RADIUS + sp * (i+1)` for both `i = 0` and `i = 1`. -/
theorem orbit_radius_lacks_sun_radius_offset :
    ¬ ∃ sp : ℚ, Viz.orbitRadius 900 700 0 = SUN_RADIUS + sp * (0 + 1) ∧
                Viz.orbitRadius 900 700 1 = SUN_RADIUS + sp * (1 + 1) := by
  rintro ⟨sp, h0, h1⟩
  have e0 : Viz.orbitRadius 900 700 0 = 50.625 := by
    norm_num [Viz.orbitRadius, Viz.orbitSpacing, Viz.availableRadius, PLANETS,
      min_def]
  have e1 : Viz.orbitRadius 900 700 1 = 101.25 := by
    norm_num [Viz.orbitRadius, Viz.orbitSpacing, Viz.availableRadius, PLANETS,
      min_def]
  rw [e0] at h0
  rw [e1] at h1
  norm_num [SUN_RADIUS] at h0 h1
  linarith

/-- C2 (amended).  The rendered orbit radius for the planet at 0-based
index `i` is `orbitSpacing × (i+1)` with no `SUN_RADIUS` offset, where
`orbitSpacing = (availableRadius / 8) × 1.5`: the animated position always
lies at exactly that distance from the container center, for every planet
alike (ordinal in `i`, independent of the planet's `distanceFromSun`), and
the radii are not proportional to the planets' distances in AU. -/
theorem animate_orbit_radius_ordinal :
    (∀ (w h : ℚ) (t : ℝ) (p : Planet) (i : ℕ),
       ((Viz.animatePos w h t p i).1 - ((Viz.centerX w : ℚ) : ℝ)) ^ 2 +
       ((Viz.animatePos w h t p i).2 - ((Viz.centerY h : ℚ) : ℝ)) ^ 2 =
       ((Viz.orbitRadius w h i : ℚ) : ℝ) ^ 2) ∧
    (¬ ∃ c : ℚ, Viz.orbitRadius 900 700 0 = c * mercuryP.distanceFromSun ∧
                Viz.orbitRadius 900 700 1 = c * venusP.distanceFromSun) := by
  constructor
  · intro w h t p i
    unfold Viz.animatePos
    dsimp only
    have hsc := Real.sin_sq_add_cos_sq (Viz.animateAngle t p)
    set cX := ((Viz.centerX w : ℚ) : ℝ)
    set cY := ((Viz.centerY h : ℚ) : ℝ)
    set r := ((Viz.orbitRadius w h i : ℚ) : ℝ)
    set θ := Viz.animateAngle t p
    have hexp : (cX + r * Real.cos θ - cX) ^ 2 + (cY + r * Real.sin θ - cY) ^ 2
        = r ^ 2 * (Real.sin θ ^ 2 + Real.cos θ ^ 2) := by ring
    rw [hexp, hsc, mul_one]
  · rintro ⟨c, h0, h1⟩
    have e0 : Viz.orbitRadius 900 700 0 = 50.625 := by
      norm_num [Viz.orbitRadius, Viz.orbitSpacing, Viz.availableRadius, PLANETS,
        min_def]
    have e1 : Viz.orbitRadius 900 700 1 = 101.25 := by
      norm_num [Viz.orbitRadius, Viz.orbitSpacing, Viz.availableRadius, PLANETS,
        min_def]
    rw [e0] at h0
    rw [e1] at h1
    norm_num [mercuryP, venusP] at h0 h1
    linarith

end Sol
